import Mathlib

/-!
Shallow embedding of the data-access layer in `app/crud.py` of the
mentalhealthjournal repository, with theorems checking the specification's
claims about it.

Modelling conventions:
* The ORM session together with the underlying store is modelled as an
  explicit `DB` value threaded through every operation; functions with side
  effects return the updated `DB`.
* Timestamps are integers (seconds); `datetime.now(timezone.utc)` and
  `datetime.utcnow()` read the session clock `DB.now`; `timedelta(days=d)`
  is `d * 86400` seconds.
* `uuid.UUID` user ids are modelled as `Nat`; store-assigned primary keys
  come from the fresh-id counters in `DB`.
* SQL `.first()` is `List.find?`; a query with `order_by` is a stable
  `List.insertionSort` of the filtered rows (tie order in SQL `ORDER BY` is
  arbitrary; the theorems below rely only on sortedness and on the
  underlying multiset of rows).
* `db.add` / `db.add_all` on yet-uncommitted `Article` objects stage them in
  `DB.pendingArticles`; a commit materializes all staged objects into
  `DB.articles`, and `db.rollback()` discards the staged objects while
  leaving the persisted tables unchanged.  A failure of the commit inside
  the `try` block of `create_articles_bulk` is injected via
  `DB.commitFails`.
* Python's `json.loads`, used by `get_theme_frequency`, is modelled by
  `jsonLoads`, a fueled recursive-descent JSON reader covering null,
  booleans, integer numbers, strings (with escapes), arrays and objects.
  Float literals and the NaN/Infinity extensions are outside the model; no
  claim involves them.
* `collections.Counter` is modelled by an association list in key
  first-insertion order (`counterAdd` / `counterUpdate`), and
  `Counter.most_common(n)` by a stable sort on descending counts followed
  by `take n`, matching CPython's documented behaviour.
-/

inductive StoreError where
  | integrityError (msg : String)
  | commitError (msg : String)
deriving DecidableEq

structure User where
  id : Nat
  email : String
  hashed_password : String
  first_name : String
  last_name : String
deriving DecidableEq

/-- A JSON value as produced by `json.loads`. -/
inductive JValue where
  | null
  | bool (b : Bool)
  | num (n : Int)
  | str (s : String)
  | arr (elems : List JValue)
  | obj (fields : List (String × JValue))

mutual

def JValue.beq : JValue → JValue → Bool
  | JValue.null, JValue.null => true
  | JValue.bool a, JValue.bool b => a == b
  | JValue.num a, JValue.num b => a == b
  | JValue.str a, JValue.str b => a == b
  | JValue.arr as, JValue.arr bs => JValue.beqList as bs
  | JValue.obj as, JValue.obj bs => JValue.beqFields as bs
  | _, _ => false

def JValue.beqList : List JValue → List JValue → Bool
  | [], [] => true
  | a :: as, b :: bs => JValue.beq a b && JValue.beqList as bs
  | _, _ => false

def JValue.beqFields : List (String × JValue) → List (String × JValue) → Bool
  | [], [] => true
  | (ka, va) :: as, (kb, vb) :: bs => ka == kb && JValue.beq va vb && JValue.beqFields as bs
  | _, _ => false

end

instance : BEq JValue := ⟨JValue.beq⟩

/-- The stored `key_themes` column is dynamically typed: either a native
list of strings (the SQLAlchemy JSON type) or a JSON-encoded string. -/
inductive ThemesField where
  | lst (themes : List String)
  | str (s : String)
deriving DecidableEq

structure JournalEntry where
  id : Nat
  user_id : Nat
  content : String
  mood : Option String
  sentiment_score : Option Int
  sentiment_label : Option String
  key_themes : Option ThemesField
  suggested_strategies : Option (List String)
  ai_analysis_completed_at : Option Int
  created_at : Int
deriving DecidableEq

structure Article where
  id : Nat
  user_id : Nat
  title : String
  body : String
  triggering_mood : String
  source_journal_entry_id : Option Nat
  generation_variation_key : String
  generated_at : Int
deriving DecidableEq

/-- An `Article` ORM object that has been constructed and `db.add`-ed but
not yet committed: it has no store-assigned id yet, and its `generated_at`
is `none` when left to the model's column default. -/
structure PendingArticle where
  user_id : Nat
  title : String
  body : String
  triggering_mood : String
  source_journal_entry_id : Option Nat
  generation_variation_key : String
  generated_at : Option Int
deriving DecidableEq

structure DB where
  users : List User
  entries : List JournalEntry
  articles : List Article
  pendingArticles : List PendingArticle
  freshUserId : Nat
  freshEntryId : Nat
  freshArticleId : Nat
  now : Int
  commitFails : Option StoreError
deriving DecidableEq

structure UserCreate where
  email : String
  password : String
  first_name : String
  last_name : String
deriving DecidableEq

structure JournalEntryCreate where
  content : String
  mood : Option String
deriving DecidableEq

structure AIAnalysisResult where
  sentiment_score : Int
  sentiment_label : String
  key_themes : List String
  suggested_strategies : List String
deriving DecidableEq

structure MoodPoint where
  date : Int
  mood : Option String
deriving DecidableEq

structure ThemeCloudItem where
  theme : JValue
  count : Nat

structure ArticleCreate where
  user_id : Nat
  title : String
  body : String
  triggering_mood : String
  source_journal_entry_id : Option Nat
  generation_variation_key : String
deriving DecidableEq

/-- Modelled from the spec: `app/auth.py` (`get_password_hash`) is not under
`src/`; the spec requires `create_user` to hash the plaintext password
before persisting and to never store the plaintext.  The hash is modelled
as a prefixed encoding, enough to make every hash differ from its
plaintext. -/
def get_password_hash (password : String) : String :=
  "salted-hash:" ++ password

def get_user (db : DB) (user_id : Nat) : Option User :=
  db.users.find? (fun u => u.id == user_id)

def get_user_by_email (db : DB) (email : String) : Option User :=
  db.users.find? (fun u => u.email == email)

/-- `create_user`: hash the password, build the row, `db.add`, `db.commit`,
`db.refresh`, return.  The email-uniqueness constraint is enforced by the
store at commit; the source has no try/except around the commit, so the
store's `IntegrityError` propagates unchanged to the caller. -/
def create_user (db : DB) (user : UserCreate) : Except StoreError User × DB :=
  let hashed_password := get_password_hash user.password
  let db_user : User :=
    { id := db.freshUserId
      email := user.email
      hashed_password := hashed_password
      first_name := user.first_name
      last_name := user.last_name }
  if db.users.any (fun u => u.email == user.email) then
    (Except.error (StoreError.integrityError
      ("UNIQUE constraint failed: users.email: " ++ user.email)), db)
  else
    (Except.ok db_user,
      { db with users := db.users ++ [db_user], freshUserId := db.freshUserId + 1 })

/-- `delete_user`: the cascade delete of the user's journal entries is
enforced by the store, atomically with the user row. -/
def delete_user (db : DB) (user_id : Nat) : Option User × DB :=
  match get_user db user_id with
  | some db_user =>
      (some db_user,
        { db with
            users := db.users.eraseP (fun u => u.id == db_user.id)
            entries := db.entries.filter (fun e => e.user_id != db_user.id) })
  | none => (none, db)

def get_journal_entry (db : DB) (entry_id : Nat) (user_id : Nat) : Option JournalEntry :=
  db.entries.find? (fun e => e.id == entry_id && e.user_id == user_id)

def entriesByCreatedAtDesc (l : List JournalEntry) : List JournalEntry :=
  List.insertionSort (fun a b => b.created_at ≤ a.created_at) l

def get_user_journal_entries (db : DB) (user_id : Nat) (skip : Nat) (limit : Nat) :
    List JournalEntry :=
  ((entriesByCreatedAtDesc (db.entries.filter (fun e => e.user_id == user_id))).drop skip).take
    limit

def create_journal_entry (db : DB) (entry : JournalEntryCreate) (user_id : Nat) :
    JournalEntry × DB :=
  let db_entry : JournalEntry :=
    { id := db.freshEntryId
      user_id := user_id
      content := entry.content
      mood := entry.mood
      sentiment_score := none
      sentiment_label := none
      key_themes := none
      suggested_strategies := none
      ai_analysis_completed_at := none
      created_at := db.now }
  (db_entry, { db with entries := db.entries ++ [db_entry], freshEntryId := db.freshEntryId + 1 })

/-- Replace the first element satisfying `p` (the ORM `UPDATE ... WHERE id =
pk` touches the row the loaded object maps to). -/
def updateFirst (p : α → Bool) (f : α → α) : List α → List α
  | [] => []
  | x :: xs => if p x then f x :: xs else x :: updateFirst p f xs

/-- The field overwrite performed by `update_journal_entry_with_ai` on the
loaded entry, with `ai_analysis_completed_at = datetime.now(timezone.utc)`. -/
def applyAIResults (ai_results : AIAnalysisResult) (now : Int) (e : JournalEntry) :
    JournalEntry :=
  { e with
      sentiment_score := some ai_results.sentiment_score
      sentiment_label := some ai_results.sentiment_label
      key_themes := some (ThemesField.lst ai_results.key_themes)
      suggested_strategies := some ai_results.suggested_strategies
      ai_analysis_completed_at := some now }

def update_journal_entry_with_ai (db : DB) (entry_id : Nat) (user_id : Nat)
    (ai_results : AIAnalysisResult) : Option JournalEntry × DB :=
  match get_journal_entry db entry_id user_id with
  | some db_entry =>
      let updated := applyAIResults ai_results db.now db_entry
      (some updated,
        { db with
            entries := updateFirst (fun e => e.id == db_entry.id) (fun _ => updated) db.entries })
  | none => (none, db)

def delete_journal_entry (db : DB) (entry_id : Nat) (user_id : Nat) :
    Option JournalEntry × DB :=
  match get_journal_entry db entry_id user_id with
  | some db_entry =>
      (some db_entry, { db with entries := db.entries.eraseP (fun e => e.id == db_entry.id) })
  | none => (none, db)

def entriesByCreatedAtAsc (l : List JournalEntry) : List JournalEntry :=
  List.insertionSort (fun a b => a.created_at ≤ b.created_at) l

def get_mood_history (db : DB) (user_id : Nat) (days : Nat) : List MoodPoint :=
  let start_date := db.now - (days : Int) * 86400
  let results := entriesByCreatedAtAsc (db.entries.filter (fun e =>
    e.user_id == user_id && decide (start_date ≤ e.created_at) && e.mood.isSome))
  results.map (fun e => { date := e.created_at, mood := e.mood })

/-- Whitespace skipping of the JSON reader. -/
def skipWs : List Char → List Char
  | [] => []
  | c :: cs => if c == ' ' || c == '\t' || c == '\n' || c == '\r' then skipWs cs else c :: cs

def isJsonDigit (c : Char) : Bool :=
  '0' ≤ c && c ≤ '9'

def hexVal (c : Char) : Option Nat :=
  if '0' ≤ c && c ≤ '9' then some (c.toNat - Char.toNat '0')
  else if 'a' ≤ c && c ≤ 'f' then some (c.toNat - Char.toNat 'a' + 10)
  else if 'A' ≤ c && c ≤ 'F' then some (c.toNat - Char.toNat 'A' + 10)
  else none

def readDigits : List Char → Nat → Nat × List Char
  | c :: rest, acc =>
      if isJsonDigit c then readDigits rest (acc * 10 + (c.toNat - Char.toNat '0'))
      else (acc, c :: rest)
  | [], acc => (acc, [])

def escChar (e : Char) : Option Char :=
  if e == '"' then some '"'
  else if e == '\\' then some '\\'
  else if e == '/' then some '/'
  else if e == 'b' then some (Char.ofNat 8)
  else if e == 'f' then some (Char.ofNat 12)
  else if e == 'n' then some '\n'
  else if e == 'r' then some '\r'
  else if e == 't' then some '\t'
  else none

/-- The opening and closing braces of a JSON object. -/
def lbraceChar : Char := Char.ofNat 123

def rbraceChar : Char := Char.ofNat 125

/-- Read the characters of a JSON string literal after its opening quote;
return the decoded characters and the remaining input. -/
def readStringChars : Nat → List Char → Option (List Char × List Char)
  | 0, _ => none
  | fuel + 1, cs =>
    match cs with
    | [] => none
    | c :: cs1 =>
      if c == '"' then some ([], cs1)
      else if c == '\\' then
        match cs1 with
        | [] => none
        | e :: cs2 =>
          if e == 'u' then
            match cs2 with
            | h1 :: h2 :: h3 :: h4 :: cs3 =>
              match hexVal h1, hexVal h2, hexVal h3, hexVal h4 with
              | some a, some b, some c2, some d =>
                match readStringChars fuel cs3 with
                | some (out, rest) =>
                    some (Char.ofNat (((a * 16 + b) * 16 + c2) * 16 + d) :: out, rest)
                | none => none
              | _, _, _, _ => none
            | _ => none
          else
            match escChar e with
            | some ec =>
              match readStringChars fuel cs2 with
              | some (out, rest) => some (ec :: out, rest)
              | none => none
            | none => none
      else
        match readStringChars fuel cs1 with
        | some (out, rest) => some (c :: out, rest)
        | none => none

mutual

/-- Fueled recursive-descent reader for one JSON value, modelling
`json.loads` (integer numerals only; see the module docstring). -/
def parseValue : Nat → List Char → Option (JValue × List Char)
  | 0, _ => none
  | fuel + 1, cs =>
    match skipWs cs with
    | [] => none
    | c :: rest =>
      if c == 'n' then
        match rest with
        | 'u' :: 'l' :: 'l' :: rest2 => some (JValue.null, rest2)
        | _ => none
      else if c == 't' then
        match rest with
        | 'r' :: 'u' :: 'e' :: rest2 => some (JValue.bool true, rest2)
        | _ => none
      else if c == 'f' then
        match rest with
        | 'a' :: 'l' :: 's' :: 'e' :: rest2 => some (JValue.bool false, rest2)
        | _ => none
      else if c == '"' then
        match readStringChars fuel rest with
        | some (out, rest2) => some (JValue.str (String.mk out), rest2)
        | none => none
      else if c == '[' then
        parseArray fuel rest
      else if c == lbraceChar then
        parseObject fuel rest
      else if c == '-' then
        match rest with
        | d :: rest2 =>
          if isJsonDigit d then
            let p := readDigits rest2 (d.toNat - Char.toNat '0')
            some (JValue.num (-(p.1 : Int)), p.2)
          else none
        | [] => none
      else if isJsonDigit c then
        let p := readDigits rest (c.toNat - Char.toNat '0')
        some (JValue.num (p.1 : Int), p.2)
      else none

def parseArray : Nat → List Char → Option (JValue × List Char)
  | 0, _ => none
  | fuel + 1, cs =>
    match skipWs cs with
    | c :: rest =>
      if c == ']' then some (JValue.arr [], rest)
      else
        match parseValue fuel (c :: rest) with
        | some (v, rest2) => parseArrayTail fuel [v] rest2
        | none => none
    | [] => none

/-- Continue an array after at least one element; `acc` holds the elements
read so far in reverse order. -/
def parseArrayTail : Nat → List JValue → List Char → Option (JValue × List Char)
  | 0, _, _ => none
  | fuel + 1, acc, cs =>
    match skipWs cs with
    | c :: rest =>
      if c == ']' then some (JValue.arr acc.reverse, rest)
      else if c == ',' then
        match parseValue fuel rest with
        | some (v, rest2) => parseArrayTail fuel (v :: acc) rest2
        | none => none
      else none
    | [] => none

def parseObject : Nat → List Char → Option (JValue × List Char)
  | 0, _ => none
  | fuel + 1, cs =>
    match skipWs cs with
    | c :: rest =>
      if c == rbraceChar then some (JValue.obj [], rest)
      else parseMembers fuel [] (c :: rest)
    | [] => none

/-- Read the members of a JSON object; `acc` holds the members read so far
in reverse order. -/
def parseMembers : Nat → List (String × JValue) → List Char → Option (JValue × List Char)
  | 0, _, _ => none
  | fuel + 1, acc, cs =>
    match skipWs cs with
    | c :: rest =>
      if c == '"' then
        match readStringChars fuel rest with
        | some (key, rest2) =>
          match skipWs rest2 with
          | c2 :: rest3 =>
            if c2 == ':' then
              match parseValue fuel rest3 with
              | some (v, rest4) =>
                match skipWs rest4 with
                | c3 :: rest5 =>
                  if c3 == ',' then
                    parseMembers fuel ((String.mk key, v) :: acc) rest5
                  else if c3 == rbraceChar then
                    some (JValue.obj (((String.mk key, v) :: acc).reverse), rest5)
                  else none
                | [] => none
              | none => none
            else none
          | [] => none
        | none => none
      else none
    | [] => none

end

/-- Model of `json.loads`: read one JSON value and require that only
whitespace remains; any deviation raises `JSONDecodeError`, i.e. `none`. -/
def jsonLoads (s : String) : Option JValue :=
  match parseValue (3 * s.length + 16) s.data with
  | some (v, rest) => if (skipWs rest).isEmpty then some v else none
  | none => none

/-- `Counter` update with one element: bump an existing key in place or
append a new key at the end (CPython dicts preserve insertion order). -/
def counterAdd (items : List (JValue × Nat)) (v : JValue) : List (JValue × Nat) :=
  if items.any (fun p => p.1 == v) then
    items.map (fun p => if p.1 == v then (p.1, p.2 + 1) else p)
  else items ++ [(v, 1)]

/-- `Counter.update` with an iterable of elements. -/
def counterUpdate (items : List (JValue × Nat)) (vs : List JValue) : List (JValue × Nat) :=
  vs.foldl counterAdd items

/-- `Counter.most_common(n)`: keys sorted by count descending, ties in
insertion order (the sort is stable), truncated to `n`. -/
def mostCommon (n : Nat) (items : List (JValue × Nat)) : List (JValue × Nat) :=
  (List.insertionSort (fun p q : JValue × Nat => q.2 ≤ p.2) items).take n

def themeWarning (s : String) : String :=
  "Warning: Could not parse key_themes JSON string: " ++ s

/-- The body of the per-row loop of `get_theme_frequency`: a native list is
counted directly; a string is `json.loads`-parsed and counted only when it
parses to a list; a `JSONDecodeError` prints a warning and is skipped. -/
def themeStep (st : List (JValue × Nat) × List String) (theme_list : ThemesField) :
    List (JValue × Nat) × List String :=
  match theme_list with
  | ThemesField.lst xs => (counterUpdate st.1 (xs.map JValue.str), st.2)
  | ThemesField.str s =>
    match jsonLoads s with
    | some (JValue.arr parsed_list) => (counterUpdate st.1 parsed_list, st.2)
    | some _ => st
    | none => (st.1, st.2 ++ [themeWarning s])

/-- `get_theme_frequency`, returning the theme-cloud items together with
the warnings printed while scanning. -/
def get_theme_frequency (db : DB) (user_id : Nat) (days : Nat) :
    List ThemeCloudItem × List String :=
  let start_date := db.now - (days : Int) * 86400
  let results := (db.entries.filter (fun e =>
      e.user_id == user_id && decide (start_date ≤ e.created_at)
        && e.key_themes.isSome)).filterMap (fun e => e.key_themes)
  let st := results.foldl themeStep ([], [])
  let top_themes := mostCommon 50 st.1
  (top_themes.map (fun p => { theme := p.1, count := p.2 }), st.2)

/-- `create_article`: construct the ORM object and `db.add` it; the commit
(and hence the refresh) is deliberately left to the caller. -/
def create_article (db : DB) (article_in : ArticleCreate) : PendingArticle × DB :=
  let db_article : PendingArticle :=
    { user_id := article_in.user_id
      title := article_in.title
      body := article_in.body
      triggering_mood := article_in.triggering_mood
      source_journal_entry_id := article_in.source_journal_entry_id
      generation_variation_key := article_in.generation_variation_key
      generated_at := none }
  (db_article, { db with pendingArticles := db.pendingArticles ++ [db_article] })

def get_article (db : DB) (article_id : Nat) (user_id : Nat) : Option Article :=
  db.articles.find? (fun a => a.id == article_id && a.user_id == user_id)

def articlesByGeneratedAtDesc (l : List Article) : List Article :=
  List.insertionSort (fun a b => b.generated_at ≤ a.generated_at) l

def get_user_articles (db : DB) (user_id : Nat) (skip : Nat) (limit : Nat) : List Article :=
  ((articlesByGeneratedAtDesc (db.articles.filter (fun a => a.user_id == user_id))).drop
    skip).take limit

def delete_article (db : DB) (article_id : Nat) (user_id : Nat) : Option Article × DB :=
  match get_article db article_id user_id with
  | some db_article =>
      (some db_article,
        { db with articles := db.articles.eraseP (fun a => a.id == db_article.id) })
  | none => (none, db)

/-- Committing the session materializes every staged article into a
persisted row: the store assigns consecutive fresh ids, and a pending
`generated_at` of `none` falls back to the model's column default (the
commit-time clock). -/
def materializePending (freshId : Nat) (now : Int) : List PendingArticle → List Article
  | [] => []
  | p :: ps =>
      { id := freshId
        user_id := p.user_id
        title := p.title
        body := p.body
        triggering_mood := p.triggering_mood
        source_journal_entry_id := p.source_journal_entry_id
        generation_variation_key := p.generation_variation_key
        generated_at := p.generated_at.getD now } :: materializePending (freshId + 1) now ps

/-- `create_articles_bulk`: early return on empty input; otherwise take one
`datetime.utcnow()`, build all models with that `generated_at`,
`db.add_all`, `db.commit` (flushing everything staged in the session),
refresh and return the new rows; on any exception, `db.rollback()` and
re-raise it. -/
def create_articles_bulk (db : DB) (articles_to_create : List ArticleCreate) :
    Except StoreError (List Article) × DB :=
  if articles_to_create.isEmpty then (Except.ok [], db)
  else
    let now := db.now
    let db_models : List PendingArticle := articles_to_create.map (fun article =>
      { user_id := article.user_id
        title := article.title
        body := article.body
        triggering_mood := article.triggering_mood
        source_journal_entry_id := article.source_journal_entry_id
        generation_variation_key := article.generation_variation_key
        generated_at := some now })
    match db.commitFails with
    | some e => (Except.error e, { db with pendingArticles := [] })
    | none =>
      let staged := db.pendingArticles ++ db_models
      let inserted := materializePending db.freshArticleId db.now staged
      (Except.ok (inserted.drop db.pendingArticles.length),
        { db with
            articles := db.articles ++ inserted
            pendingArticles := []
            freshArticleId := db.freshArticleId + staged.length })

/-! ## Helper lemmas -/

theorem materializePending_length (freshId : Nat) (now : Int) (l : List PendingArticle) :
    (materializePending freshId now l).length = l.length := by
  induction l generalizing freshId with
  | nil => rfl
  | cons p ps ih => simp [materializePending, ih]

theorem materializePending_append (freshId : Nat) (now : Int) (a b : List PendingArticle) :
    materializePending freshId now (a ++ b)
      = materializePending freshId now a ++ materializePending (freshId + a.length) now b := by
  induction a generalizing freshId with
  | nil => simp [materializePending]
  | cons p ps ih =>
      have harith : freshId + 1 + ps.length = freshId + (ps.length + 1) := by omega
      simp [materializePending, ih, harith]

theorem materializePending_generated_at (freshId : Nat) (now : Int) (t : Int)
    (l : List PendingArticle) (hl : ∀ p ∈ l, p.generated_at = some t) :
    ∀ r ∈ materializePending freshId now l, r.generated_at = t := by
  induction l generalizing freshId with
  | nil => intro r hr; cases hr
  | cons p ps ih =>
      intro r hr
      rcases List.mem_cons.mp hr with hr | hr
      · subst hr
        simp [hl p (List.mem_cons_self p ps)]
      · exact ih (freshId + 1) (fun q hq => hl q (List.mem_cons_of_mem p hq)) r hr

theorem get_password_hash_ne (password : String) :
    get_password_hash password ≠ password := by
  intro h
  have hlen := congrArg String.length h
  rw [get_password_hash, String.length_append] at hlen
  have h12 : ("salted-hash:" : String).length = 12 := rfl
  omega

/-! ## C3: bulk insert on the empty list -/

/-- C3: `create_articles_bulk` applied to the empty list returns an empty
list and performs no store interaction whatsoever: no write, no commit, no
rollback, and the session state is returned unchanged. -/
theorem create_articles_bulk_empty (db : DB) :
    create_articles_bulk db [] = (Except.ok [], db) := rfl

/-! ## C9: create_article stages without committing -/

/-- C9: `create_article` constructs the article object and attaches it to
the caller-supplied session without committing: the staged queue gains
exactly the returned object (built from the input's fields, with no
generation timestamp assigned yet), while the persisted users, entries and
articles tables are unchanged until the caller commits. -/
theorem create_article_stages (db : DB) (article_in : ArticleCreate) :
    (create_article db article_in).2.pendingArticles
        = db.pendingArticles ++ [(create_article db article_in).1]
      ∧ (create_article db article_in).2.articles = db.articles
      ∧ (create_article db article_in).2.users = db.users
      ∧ (create_article db article_in).2.entries = db.entries
      ∧ (create_article db article_in).1.user_id = article_in.user_id
      ∧ (create_article db article_in).1.title = article_in.title
      ∧ (create_article db article_in).1.body = article_in.body
      ∧ (create_article db article_in).1.triggering_mood = article_in.triggering_mood
      ∧ (create_article db article_in).1.source_journal_entry_id
          = article_in.source_journal_entry_id
      ∧ (create_article db article_in).1.generation_variation_key
          = article_in.generation_variation_key
      ∧ (create_article db article_in).1.generated_at = none :=
  ⟨rfl, rfl, rfl, rfl, rfl, rfl, rfl, rfl, rfl, rfl, rfl⟩

/-! ## C2: bulk insert is all-or-nothing with one shared timestamp -/

/-- C2: for a non-empty batch, `create_articles_bulk` stamps every built
row with the single clock reading taken at the start of the call and
commits all of them in one transaction: on success exactly `N` new rows
(all with `generated_at` equal to that one timestamp) are appended to the
store after anything the session had already staged, and on an injected
commit failure the whole transaction is rolled back — the persisted users,
entries and articles are exactly the ones from before the call, nothing of
the batch survives, and the triggering error is re-raised unchanged. -/
theorem create_articles_bulk_atomic (db : DB) (items : List ArticleCreate)
    (hne : items ≠ []) :
    (∀ e, db.commitFails = some e →
        create_articles_bulk db items
          = (Except.error e, { db with pendingArticles := [] })
          ∧ ({ db with pendingArticles := ([] : List PendingArticle) }).articles = db.articles
          ∧ ({ db with pendingArticles := ([] : List PendingArticle) }).users = db.users
          ∧ ({ db with pendingArticles := ([] : List PendingArticle) }).entries = db.entries)
      ∧ (db.commitFails = none →
          ∃ rows flushed,
            create_articles_bulk db items
                = (Except.ok rows,
                   { db with
                       articles := db.articles ++ flushed ++ rows
                       pendingArticles := []
                       freshArticleId :=
                         db.freshArticleId + db.pendingArticles.length + items.length })
              ∧ rows.length = items.length
              ∧ flushed.length = db.pendingArticles.length
              ∧ (∀ r ∈ rows, r.generated_at = db.now)) := by
  have hline : items.isEmpty = false := by
    cases items with
    | nil => exact absurd rfl hne
    | cons a l => rfl
  constructor
  · intro e he
    refine ⟨?_, rfl, rfl, rfl⟩
    rw [create_articles_bulk, hline]
    simp only [Bool.false_eq_true, if_false, he]
  · intro hok
    refine ⟨materializePending (db.freshArticleId + db.pendingArticles.length) db.now
        (items.map (fun article =>
          ({ user_id := article.user_id
             title := article.title
             body := article.body
             triggering_mood := article.triggering_mood
             source_journal_entry_id := article.source_journal_entry_id
             generation_variation_key := article.generation_variation_key
             generated_at := some db.now } : PendingArticle))),
      materializePending db.freshArticleId db.now db.pendingArticles, ?_, ?_, ?_, ?_⟩
    · rw [create_articles_bulk, hline]
      simp only [Bool.false_eq_true, if_false, hok]
      rw [materializePending_append, List.drop_left' (materializePending_length _ _ _),
        ← List.append_assoc]
      simp [List.length_append, List.length_map, Nat.add_assoc]
    · rw [materializePending_length, List.length_map]
    · exact materializePending_length _ _ _
    · refine materializePending_generated_at _ _ _ _ ?_
      intro p hp
      obtain ⟨article, _, rfl⟩ := List.mem_map.mp hp
      rfl

/-! ## C8: create_user hashes and propagates uniqueness violations -/

/-- C8: `create_user` persists the hash of the supplied plaintext password
— never the plaintext itself — and returns the fully populated record
(store-assigned id, email and names); when the email uniqueness constraint
is violated, the store's integrity error is propagated to the caller
unchanged and nothing is persisted. -/
theorem create_user_spec (db : DB) (user : UserCreate) :
    ((∀ u ∈ db.users, u.email ≠ user.email) →
        ∃ u2, create_user db user
            = (Except.ok u2,
               { db with users := db.users ++ [u2], freshUserId := db.freshUserId + 1 })
          ∧ u2.hashed_password = get_password_hash user.password
          ∧ u2.hashed_password ≠ user.password
          ∧ u2.email = user.email
          ∧ u2.first_name = user.first_name
          ∧ u2.last_name = user.last_name
          ∧ u2.id = db.freshUserId)
      ∧ ((∃ u ∈ db.users, u.email = user.email) →
          create_user db user
            = (Except.error (StoreError.integrityError
                ("UNIQUE constraint failed: users.email: " ++ user.email)), db)) := by
  constructor
  · intro hfree
    have hany : db.users.any (fun u => u.email == user.email) = false := by
      rw [List.any_eq_false]
      intro u hu
      simpa using hfree u hu
    refine ⟨{ id := db.freshUserId
              email := user.email
              hashed_password := get_password_hash user.password
              first_name := user.first_name
              last_name := user.last_name }, ?_, rfl,
      get_password_hash_ne user.password, rfl, rfl, rfl, rfl⟩
    rw [create_user]
    simp only [hany, Bool.false_eq_true, if_false]
  · intro hdup
    have hany : db.users.any (fun u => u.email == user.email) = true := by
      rw [List.any_eq_true]
      obtain ⟨u, hu, he⟩ := hdup
      exact ⟨u, hu, by simpa using he⟩
    rw [create_user]
    simp only [hany, if_true]

/-! ## C1: ownership scoping -/

theorem find?_entry_other_user_none {A B : Nat} (hAB : A ≠ B)
    (l : List JournalEntry) (hids : (l.map (fun x => x.id)).Nodup)
    (e : JournalEntry) (he : e ∈ l) (heB : e.user_id = B) :
    l.find? (fun x => x.id == e.id && x.user_id == A) = none := by
  rw [List.find?_eq_none]
  intro x hx hpx
  simp only [Bool.and_eq_true, beq_iff_eq] at hpx
  obtain ⟨hid, huser⟩ := hpx
  have hxe : x = e := List.inj_on_of_nodup_map hids hx he hid
  exact hAB (by rw [← huser, hxe, heB])

theorem find?_article_other_user_none {A B : Nat} (hAB : A ≠ B)
    (l : List Article) (hids : (l.map (fun x => x.id)).Nodup)
    (a : Article) (ha : a ∈ l) (haB : a.user_id = B) :
    l.find? (fun x => x.id == a.id && x.user_id == A) = none := by
  rw [List.find?_eq_none]
  intro x hx hpx
  simp only [Bool.and_eq_true, beq_iff_eq] at hpx
  obtain ⟨hid, huser⟩ := hpx
  have hxa : x = a := List.inj_on_of_nodup_map hids hx ha hid
  exact hAB (by rw [← huser, hxa, haB])

/-- C1: every ownership-scoped operation filters conjunctively on the row
id and the caller's user id, so calling it as user `A` on a row owned by a
different user `B` returns absent and leaves the whole store untouched:
`get_journal_entry` / `get_article` find nothing, and
`update_journal_entry_with_ai` / `delete_journal_entry` / `delete_article`
return absent with the session state unchanged. -/
theorem ownership_scoped_ops_cross_user (db : DB) (A B : Nat)
    (e : JournalEntry) (a : Article) (r : AIAnalysisResult)
    (hAB : A ≠ B)
    (hids : (db.entries.map (fun x => x.id)).Nodup)
    (haids : (db.articles.map (fun x => x.id)).Nodup)
    (he : e ∈ db.entries) (heB : e.user_id = B)
    (ha : a ∈ db.articles) (haB : a.user_id = B) :
    get_journal_entry db e.id A = none
      ∧ update_journal_entry_with_ai db e.id A r = (none, db)
      ∧ delete_journal_entry db e.id A = (none, db)
      ∧ get_article db a.id A = none
      ∧ delete_article db a.id A = (none, db) := by
  have h1 : get_journal_entry db e.id A = none :=
    find?_entry_other_user_none hAB db.entries hids e he heB
  have h2 : get_article db a.id A = none :=
    find?_article_other_user_none hAB db.articles haids a ha haB
  refine ⟨h1, ?_, ?_, h2, ?_⟩
  · rw [update_journal_entry_with_ai, h1]
  · rw [delete_journal_entry, h1]
  · rw [delete_article, h2]

def exEntryOwnedB : JournalEntry :=
  { id := 10
    user_id := 2
    content := "b's entry"
    mood := some "calm"
    sentiment_score := none
    sentiment_label := none
    key_themes := none
    suggested_strategies := none
    ai_analysis_completed_at := none
    created_at := 500 }

def exArticleOwnedB : Article :=
  { id := 20
    user_id := 2
    title := "b's article"
    body := "text"
    triggering_mood := "sad"
    source_journal_entry_id := none
    generation_variation_key := "v1"
    generated_at := 600 }

def exAIResult : AIAnalysisResult :=
  { sentiment_score := 1
    sentiment_label := "positive"
    key_themes := ["work"]
    suggested_strategies := ["rest"] }

def exDbOwnership : DB :=
  { users := []
    entries := [exEntryOwnedB]
    articles := [exArticleOwnedB]
    pendingArticles := []
    freshUserId := 3
    freshEntryId := 11
    freshArticleId := 21
    now := 1000
    commitFails := none }

theorem ownership_scoped_ops_cross_user_witness :
    get_journal_entry exDbOwnership exEntryOwnedB.id 1 = none
      ∧ update_journal_entry_with_ai exDbOwnership exEntryOwnedB.id 1 exAIResult
          = (none, exDbOwnership)
      ∧ delete_journal_entry exDbOwnership exEntryOwnedB.id 1 = (none, exDbOwnership)
      ∧ get_article exDbOwnership exArticleOwnedB.id 1 = none
      ∧ delete_article exDbOwnership exArticleOwnedB.id 1 = (none, exDbOwnership) :=
  ownership_scoped_ops_cross_user exDbOwnership 1 2 exEntryOwnedB exArticleOwnedB exAIResult
    (by decide) (by decide) (by decide)
    (by simp [exDbOwnership]) rfl
    (by simp [exDbOwnership]) rfl

/-! ## C6: update_journal_entry_with_ai -/

theorem find?_append_cons {α} (p : α → Bool) (l1 l2 : List α) (x : α)
    (h1 : ∀ y ∈ l1, p y = false) (hx : p x = true) :
    (l1 ++ x :: l2).find? p = some x := by
  induction l1 with
  | nil => simpa using List.find?_cons_of_pos l2 hx
  | cons a as ih =>
      rw [List.cons_append, List.find?_cons_of_neg]
      · exact ih fun y hy => h1 y (List.mem_cons_of_mem a hy)
      · simp [h1 a (List.mem_cons_self a as)]

theorem updateFirst_append {α} (p : α → Bool) (f : α → α) (l1 l2 : List α) (x : α)
    (h1 : ∀ y ∈ l1, p y = false) (hx : p x = true) :
    updateFirst p f (l1 ++ x :: l2) = l1 ++ f x :: l2 := by
  induction l1 with
  | nil => simp [updateFirst, hx]
  | cons a as ih =>
      rw [List.cons_append, updateFirst]
      simp only [h1 a (List.mem_cons_self a as), Bool.false_eq_true, if_false]
      rw [ih fun y hy => h1 y (List.mem_cons_of_mem a hy), List.cons_append]

/-- C6: `update_journal_entry_with_ai` with an entry id that does not exist
or is not owned by the given user returns absent and mutates nothing; when
the ownership-scoped lookup finds the entry, the one matching row is
overwritten in place — sentiment score, sentiment label, key themes and
suggested strategies come from the AI result, the AI-completed timestamp is
the current clock, every other field of the row and every other row and
table are untouched — committed as one state transition whose updated
record is returned. -/
theorem update_journal_entry_with_ai_spec (db : DB) (entry_id user_id : Nat)
    (r : AIAnalysisResult) :
    (get_journal_entry db entry_id user_id = none →
        update_journal_entry_with_ai db entry_id user_id r = (none, db))
      ∧ (∀ l1 l2 e,
          db.entries = l1 ++ e :: l2 →
          (∀ y ∈ l1, (y.id == entry_id && y.user_id == user_id) = false) →
          (∀ y ∈ l1, (y.id == e.id) = false) →
          e.id = entry_id → e.user_id = user_id →
          get_journal_entry db entry_id user_id = some e
            ∧ update_journal_entry_with_ai db entry_id user_id r
                = (some (applyAIResults r db.now e),
                   { db with entries := l1 ++ applyAIResults r db.now e :: l2 })
            ∧ (applyAIResults r db.now e).sentiment_score = some r.sentiment_score
            ∧ (applyAIResults r db.now e).sentiment_label = some r.sentiment_label
            ∧ (applyAIResults r db.now e).key_themes = some (ThemesField.lst r.key_themes)
            ∧ (applyAIResults r db.now e).suggested_strategies = some r.suggested_strategies
            ∧ (applyAIResults r db.now e).ai_analysis_completed_at = some db.now
            ∧ (applyAIResults r db.now e).id = e.id
            ∧ (applyAIResults r db.now e).user_id = e.user_id
            ∧ (applyAIResults r db.now e).content = e.content
            ∧ (applyAIResults r db.now e).mood = e.mood
            ∧ (applyAIResults r db.now e).created_at = e.created_at) := by
  constructor
  · intro hnone
    rw [update_journal_entry_with_ai, hnone]
  · intro l1 l2 e hsplit hl1 hl1id hid huser
    have hpe : (e.id == entry_id && e.user_id == user_id) = true := by
      simp [hid, huser]
    have hfound : get_journal_entry db entry_id user_id = some e := by
      rw [get_journal_entry, hsplit]
      exact find?_append_cons _ l1 l2 e hl1 hpe
    refine ⟨hfound, ?_, rfl, rfl, rfl, rfl, rfl, rfl, rfl, rfl, rfl, rfl⟩
    have hupd : updateFirst (fun x => x.id == e.id) (fun _ => applyAIResults r db.now e)
        db.entries = l1 ++ applyAIResults r db.now e :: l2 := by
      rw [hsplit]
      exact updateFirst_append _ _ l1 l2 e hl1id (by simp)
    rw [update_journal_entry_with_ai, hfound]
    show (some (applyAIResults r db.now e), { db with entries := updateFirst (fun x => x.id == e.id) (fun _ => applyAIResults r db.now e) db.entries }) = _
    rw [hupd]

def exEntryUpd : JournalEntry :=
  { id := 1
    user_id := 1
    content := "today was fine"
    mood := some "ok"
    sentiment_score := none
    sentiment_label := none
    key_themes := none
    suggested_strategies := none
    ai_analysis_completed_at := none
    created_at := 100 }

def exDbUpd : DB :=
  { users := []
    entries := [exEntryUpd]
    articles := []
    pendingArticles := []
    freshUserId := 2
    freshEntryId := 2
    freshArticleId := 1
    now := 900
    commitFails := none }

theorem update_journal_entry_with_ai_spec_witness :
    (update_journal_entry_with_ai exDbUpd 5 1 exAIResult = (none, exDbUpd))
      ∧ get_journal_entry exDbUpd 1 1 = some exEntryUpd
      ∧ update_journal_entry_with_ai exDbUpd 1 1 exAIResult
          = (some (applyAIResults exAIResult exDbUpd.now exEntryUpd),
             { exDbUpd with entries := [applyAIResults exAIResult exDbUpd.now exEntryUpd] })
      ∧ (applyAIResults exAIResult exDbUpd.now exEntryUpd).ai_analysis_completed_at
          = some exDbUpd.now := by
  have hnone := (update_journal_entry_with_ai_spec exDbUpd 5 1 exAIResult).1 (by decide)
  have hsome := (update_journal_entry_with_ai_spec exDbUpd 1 1 exAIResult).2 [] []
    exEntryUpd rfl (by intro y hy; cases hy) (by intro y hy; cases hy) rfl rfl
  exact ⟨hnone, hsome.1, hsome.2.1, hsome.2.2.2.2.2.2.1⟩

/-! ## C7: pagination window over the descending ordering -/

instance : IsTotal JournalEntry fun a b => b.created_at ≤ a.created_at :=
  ⟨fun _ _ => le_total _ _⟩

instance : IsTrans JournalEntry fun a b => b.created_at ≤ a.created_at :=
  ⟨fun _ _ _ hab hbc => le_trans hbc hab⟩

instance : IsTotal JournalEntry fun a b => a.created_at ≤ b.created_at :=
  ⟨fun _ _ => le_total _ _⟩

instance : IsTrans JournalEntry fun a b => a.created_at ≤ b.created_at :=
  ⟨fun _ _ _ hab hbc => le_trans hab hbc⟩

/-- C7: `get_user_journal_entries` returns exactly the `[skip, skip+limit)`
window of the user's entries ordered by creation time descending: the
result is the `skip`-offset tail of the same query asked for the first
`skip + limit` rows, every returned row belongs to the user, the rows come
newest first, and the window length is exactly `limit` truncated by the
number of the user's rows past `skip` — `skip` and `limit` are applied as
supplied, with no clamping. -/
theorem get_user_journal_entries_window (db : DB) (u skip limit : Nat) :
    get_user_journal_entries db u skip limit
        = (get_user_journal_entries db u 0 (skip + limit)).drop skip
      ∧ (∀ e ∈ get_user_journal_entries db u skip limit, e.user_id = u)
      ∧ List.Sorted (fun a b : JournalEntry => b.created_at ≤ a.created_at)
          (get_user_journal_entries db u skip limit)
      ∧ (get_user_journal_entries db u skip limit).length
          = min limit ((db.entries.filter (fun e => e.user_id == u)).length - skip) := by
  refine ⟨?_, ?_, ?_, ?_⟩
  · rw [get_user_journal_entries, get_user_journal_entries, List.drop_zero, List.take_drop]
  · intro e he
    rw [get_user_journal_entries] at he
    have h1 := List.mem_of_mem_take he
    have h2 := List.mem_of_mem_drop h1
    rw [entriesByCreatedAtDesc] at h2
    have h3 := (List.perm_insertionSort
      (fun a b : JournalEntry => b.created_at ≤ a.created_at) _).mem_iff.mp h2
    have h4 := List.mem_filter.mp h3
    simpa using h4.2
  · rw [get_user_journal_entries, entriesByCreatedAtDesc]
    exact List.Pairwise.sublist
      (List.Sublist.trans (List.take_sublist _ _) (List.drop_sublist _ _))
      (List.sorted_insertionSort _ _)
  · rw [get_user_journal_entries, entriesByCreatedAtDesc, List.length_take, List.length_drop,
      (List.perm_insertionSort (fun a b : JournalEntry => b.created_at ≤ a.created_at)
        _).length_eq]

theorem get_user_journal_entries_window_witness :
    get_user_journal_entries exDbUpd 1 1 3
        = (get_user_journal_entries exDbUpd 1 0 4).drop 1
      ∧ (exEntryUpd ∈ get_user_journal_entries exDbUpd 1 1 3 → exEntryUpd.user_id = 1)
      ∧ (get_user_journal_entries exDbUpd 1 1 3).length
          = min 3 ((exDbUpd.entries.filter (fun e => e.user_id == 1)).length - 1) := by
  have h := get_user_journal_entries_window exDbUpd 1 1 3
  exact ⟨h.1, fun hm => h.2.1 exEntryUpd hm, h.2.2.2⟩

/-! ## C5: get_mood_history window -/

def exFutureEntry : JournalEntry :=
  { id := 1
    user_id := 1
    content := "from the future"
    mood := some "ok"
    sentiment_score := none
    sentiment_label := none
    key_themes := none
    suggested_strategies := none
    ai_analysis_completed_at := none
    created_at := 864000 }

def exDbFuture : DB :=
  { users := []
    entries := [exFutureEntry]
    articles := []
    pendingArticles := []
    freshUserId := 2
    freshEntryId := 2
    freshArticleId := 1
    now := 0
    commitFails := none }

/-- C5 counterexample: the query only filters `created_at >= now - days`,
with no upper bound, so an entry dated after "now" is returned even though
the claimed window `[now - days, now]` excludes it: with the clock at 0 and
a 7-day window, an entry created at time 864000 (10 days in the future) is
returned by `get_mood_history`. -/
theorem get_mood_history_upper_bound_counterexample :
    exDbFuture.now = 0
      ∧ get_mood_history exDbFuture 1 7 = [{ date := 864000, mood := some "ok" }]
      ∧ ¬ (∀ pt ∈ get_mood_history exDbFuture 1 7, pt.date ≤ exDbFuture.now) := by
  refine ⟨rfl, by decide, ?_⟩
  intro h
  have := h { date := 864000, mood := some "ok" } (by decide)
  simp [exDbFuture] at this

/-- C5 (amended): `get_mood_history` returns exactly the user's entries
with a non-absent mood and creation time at least `now - days` (lower
bound inclusive; the code applies no upper bound, so later-dated entries
are included as well), as (date, mood) points in ascending chronological
order; entries older than the window and entries with an absent mood are
excluded. -/
theorem get_mood_history_spec (db : DB) (u : Nat) (days : Nat) :
    (get_mood_history db u days).Perm
        ((db.entries.filter (fun e =>
            e.user_id == u && decide (db.now - (days : Int) * 86400 ≤ e.created_at)
              && e.mood.isSome)).map (fun e => { date := e.created_at, mood := e.mood }))
      ∧ List.Sorted (fun p q : MoodPoint => p.date ≤ q.date) (get_mood_history db u days)
      ∧ (∀ pt ∈ get_mood_history db u days, pt.mood.isSome) := by
  refine ⟨?_, ?_, ?_⟩
  · rw [get_mood_history]
    exact (List.perm_insertionSort _ _).map _
  · rw [get_mood_history]
    refine List.Pairwise.map _ (fun a b hab => hab) ?_
    exact List.sorted_insertionSort _ _
  · intro pt hpt
    rw [get_mood_history] at hpt
    obtain ⟨e, he, rfl⟩ := List.mem_map.mp hpt
    rw [entriesByCreatedAtAsc] at he
    have h2 := (List.perm_insertionSort
      (fun a b : JournalEntry => a.created_at ≤ b.created_at) _).mem_iff.mp he
    have h3 := List.mem_filter.mp h2
    have h4 := h3.2
    simp only [Bool.and_eq_true] at h4
    exact h4.2

theorem get_mood_history_spec_witness :
    (get_mood_history exDbFuture 1 7).Perm
        ((exDbFuture.entries.filter (fun e =>
            e.user_id == 1 && decide (exDbFuture.now - (7 : Int) * 86400 ≤ e.created_at)
              && e.mood.isSome)).map (fun e => { date := e.created_at, mood := e.mood }))
      ∧ ({ date := 864000, mood := some "ok" } ∈ get_mood_history exDbFuture 1 7 →
          (Option.some "ok").isSome) := by
  have h := get_mood_history_spec exDbFuture 1 7
  exact ⟨h.1, fun hm => h.2.2 _ hm⟩

/-! ## C4 and C10: theme frequency -/

theorem themeStep_malformed (st : List (JValue × Nat) × List String) (s : String)
    (h : jsonLoads s = none) :
    themeStep st (ThemesField.str s) = (st.1, st.2 ++ [themeWarning s]) := by
  simp only [themeStep, h]

theorem themeStep_nonlist (st : List (JValue × Nat) × List String) (s : String) (v : JValue)
    (hv : jsonLoads s = some v) (hnl : ∀ xs, v ≠ JValue.arr xs) :
    themeStep st (ThemesField.str s) = st := by
  simp only [themeStep, hv]

def exThemeEntry (i : Nat) (tf : ThemesField) : JournalEntry :=
  { id := i
    user_id := 1
    content := "entry"
    mood := some "ok"
    sentiment_score := none
    sentiment_label := none
    key_themes := some tf
    suggested_strategies := none
    ai_analysis_completed_at := none
    created_at := 1000 }

def exDbThemesBase : DB :=
  { users := []
    entries := [exThemeEntry 1 (ThemesField.lst ["a", "b"]),
      exThemeEntry 2 (ThemesField.str "[\"a\"]")]
    articles := []
    pendingArticles := []
    freshUserId := 2
    freshEntryId := 4
    freshArticleId := 1
    now := 2000
    commitFails := none }

def exDbThemes : DB :=
  { exDbThemesBase with
      entries := exDbThemesBase.entries ++ [exThemeEntry 3 (ThemesField.str "not json")] }

/-- C4: `get_theme_frequency` scans the key-themes field of every owned
entry in the window, accepting both the native-list and the JSON-encoded
string representation; an unparsable JSON string only appends a warning and
changes no counts (it never fails the call), the counts are a multiset
tally of the theme strings, and at most the 50 most frequent (theme, count)
pairs are returned — on entries with themes `["a","b"]`, a JSON string
`["a"]` and one malformed JSON string, the result counts a: 2, b: 1 with
exactly the malformed record excluded and warned about. -/
theorem get_theme_frequency_spec :
    (∀ (db : DB) (u days : Nat), (get_theme_frequency db u days).1.length ≤ 50)
      ∧ (∀ (db : DB) (u days : Nat) (e : JournalEntry) (s : String),
          e.user_id = u →
          db.now - (days : Int) * 86400 ≤ e.created_at →
          e.key_themes = some (ThemesField.str s) →
          jsonLoads s = none →
          (get_theme_frequency { db with entries := db.entries ++ [e] } u days).1
              = (get_theme_frequency db u days).1
            ∧ (get_theme_frequency { db with entries := db.entries ++ [e] } u days).2
              = (get_theme_frequency db u days).2 ++ [themeWarning s])
      ∧ (get_theme_frequency exDbThemes 1 7).1.map (fun t => (t.theme, t.count))
          = [(JValue.str "a", 2), (JValue.str "b", 1)]
      ∧ (get_theme_frequency exDbThemes 1 7).2 = [themeWarning "not json"] := by
  refine ⟨?_, ?_, rfl, rfl⟩
  · intro db u days
    rw [get_theme_frequency]
    simp only [List.length_map, mostCommon]
    exact List.length_take_le _ _
  · intro db u days e s hu hwin hthemes hjson
    have hp : (e.user_id == u && decide (db.now - (days : Int) * 86400 ≤ e.created_at)
        && e.key_themes.isSome) = true := by
      simp [hu, hwin, hthemes]
    have hfilter : List.filter (fun x => x.user_id == u
        && decide (db.now - (days : Int) * 86400 ≤ x.created_at) && x.key_themes.isSome) [e]
        = [e] := by
      simp only [List.filter_cons, List.filter_nil, hp, if_true]
    have hfmap : List.filterMap (fun x => x.key_themes) [e] = [ThemesField.str s] := by
      simp [hthemes]
    rw [get_theme_frequency, get_theme_frequency]
    simp only [List.filter_append, hfilter, List.filterMap_append, hfmap,
      List.foldl_append, List.foldl_cons, List.foldl_nil]
    rw [themeStep_malformed _ _ hjson]
    exact ⟨rfl, rfl⟩

theorem get_theme_frequency_spec_witness :
    ((get_theme_frequency { exDbThemesBase with entries := exDbThemesBase.entries
          ++ [exThemeEntry 3 (ThemesField.str "not json")] } 1 7).1
        = (get_theme_frequency exDbThemesBase 1 7).1)
      ∧ ((get_theme_frequency { exDbThemesBase with entries := exDbThemesBase.entries
          ++ [exThemeEntry 3 (ThemesField.str "not json")] } 1 7).2
        = (get_theme_frequency exDbThemesBase 1 7).2 ++ [themeWarning "not json"])
      ∧ (get_theme_frequency exDbThemesBase 1 7).1.length ≤ 50 := by
  have h2 := get_theme_frequency_spec.2.1 exDbThemesBase 1 7
    (exThemeEntry 3 (ThemesField.str "not json")) "not json" rfl (by decide) rfl rfl
  exact ⟨h2.1, h2.2, get_theme_frequency_spec.1 exDbThemesBase 1 7⟩

/-- C10: a key-themes field stored as a string that parses as valid JSON
but to a non-list value is skipped silently by `get_theme_frequency`: the
entry contributes nothing to the counts and — unlike a malformed JSON
string — no warning is emitted, so adding such an entry leaves the result
(counts and warnings alike) unchanged. -/
theorem get_theme_frequency_nonlist_json (db : DB) (u days : Nat) (e : JournalEntry)
    (s : String) (v : JValue)
    (hthemes : e.key_themes = some (ThemesField.str s))
    (hv : jsonLoads s = some v)
    (hnl : ∀ xs, v ≠ JValue.arr xs) :
    get_theme_frequency { db with entries := db.entries ++ [e] } u days
      = get_theme_frequency db u days := by
  rw [get_theme_frequency, get_theme_frequency]
  by_cases hp : (e.user_id == u && decide (db.now - (days : Int) * 86400 ≤ e.created_at)
      && e.key_themes.isSome) = true
  · have hfilter : List.filter (fun x => x.user_id == u
        && decide (db.now - (days : Int) * 86400 ≤ x.created_at) && x.key_themes.isSome) [e]
        = [e] := by
      simp only [List.filter_cons, List.filter_nil, hp, if_true]
    have hfmap : List.filterMap (fun x => x.key_themes) [e] = [ThemesField.str s] := by
      simp [hthemes]
    simp only [List.filter_append, hfilter, List.filterMap_append, hfmap,
      List.foldl_append, List.foldl_cons, List.foldl_nil]
    rw [themeStep_nonlist _ _ v hv hnl]
  · have hfilter : List.filter (fun x => x.user_id == u
        && decide (db.now - (days : Int) * 86400 ≤ x.created_at) && x.key_themes.isSome) [e]
        = [] := by
      simp only [List.filter_cons, List.filter_nil]
      rw [if_neg hp]
    simp only [List.filter_append, hfilter, List.filterMap_append, List.filterMap_nil,
      List.foldl_append, List.foldl_nil]

def exDbNonList : DB :=
  { exDbThemesBase with
      entries := exDbThemesBase.entries ++ [exThemeEntry 3 (ThemesField.str "5")] }

theorem get_theme_frequency_nonlist_json_witness :
    get_theme_frequency exDbNonList 1 7 = get_theme_frequency exDbThemesBase 1 7 :=
  get_theme_frequency_nonlist_json exDbThemesBase 1 7
    (exThemeEntry 3 (ThemesField.str "5")) "5" (JValue.num 5) rfl rfl
    (fun _ h => JValue.noConfusion h)

/-! ## Concrete witnesses for the bulk-insert and create_user contracts -/

def exArticleCreate : ArticleCreate :=
  { user_id := 1
    title := "coping with stress"
    body := "article body"
    triggering_mood := "sad"
    source_journal_entry_id := none
    generation_variation_key := "v1" }

def exDbBulkOk : DB :=
  { users := []
    entries := []
    articles := []
    pendingArticles := []
    freshUserId := 1
    freshEntryId := 1
    freshArticleId := 1
    now := 100
    commitFails := none }

def exDbBulkFail : DB :=
  { exDbBulkOk with commitFails := some (StoreError.commitError "disk full") }

theorem create_articles_bulk_atomic_witness :
    (create_articles_bulk exDbBulkFail [exArticleCreate]
        = (Except.error (StoreError.commitError "disk full"),
           { exDbBulkFail with pendingArticles := [] }))
      ∧ (∃ rows flushed,
          create_articles_bulk exDbBulkOk [exArticleCreate]
              = (Except.ok rows,
                 { exDbBulkOk with
                     articles := exDbBulkOk.articles ++ flushed ++ rows
                     pendingArticles := []
                     freshArticleId := exDbBulkOk.freshArticleId
                       + exDbBulkOk.pendingArticles.length + 1 })
            ∧ rows.length = 1
            ∧ (∀ r ∈ rows, r.generated_at = exDbBulkOk.now)) := by
  constructor
  · exact ((create_articles_bulk_atomic exDbBulkFail [exArticleCreate]
      (by simp)).1 (StoreError.commitError "disk full") rfl).1
  · obtain ⟨rows, flushed, heq, hlen, hflen, hgen⟩ :=
      (create_articles_bulk_atomic exDbBulkOk [exArticleCreate] (by simp)).2 rfl
    exact ⟨rows, flushed, heq, hlen, hgen⟩

def exUserCreate : UserCreate :=
  { email := "a@example.com"
    password := "secret"
    first_name := "Ada"
    last_name := "L" }

def exUserRow : User :=
  { id := 1
    email := "a@example.com"
    hashed_password := get_password_hash "secret"
    first_name := "Ada"
    last_name := "L" }

def exDbWithUser : DB :=
  { exDbBulkOk with users := [exUserRow] }

theorem create_user_spec_witness :
    (∃ u2, create_user exDbBulkOk exUserCreate
        = (Except.ok u2,
           { exDbBulkOk with
               users := exDbBulkOk.users ++ [u2]
               freshUserId := exDbBulkOk.freshUserId + 1 })
      ∧ u2.hashed_password = get_password_hash exUserCreate.password
      ∧ u2.hashed_password ≠ exUserCreate.password)
      ∧ create_user exDbWithUser exUserCreate
          = (Except.error (StoreError.integrityError
              ("UNIQUE constraint failed: users.email: " ++ exUserCreate.email)),
             exDbWithUser) := by
  constructor
  · obtain ⟨u2, heq, h1, h2, _⟩ := (create_user_spec exDbBulkOk exUserCreate).1
      (by intro u hu; cases hu)
    exact ⟨u2, heq, h1, h2⟩
  · exact (create_user_spec exDbWithUser exUserCreate).2
      ⟨exUserRow, by decide, rfl⟩
